import Mathlib

/-!
# VRCST auction: bid validation and session lifecycle

A shallow embedding of `src/js/utils/helpers.js` (`validateBid`, the storage
wrappers), `src/js/config/constants.js` (`TEAMS`, `ROLES`, `BID_RULES`,
`STORAGE_KEYS`) and `src/js/auth/auth.js` (the session state machine), with
the properties of the written specification stated and settled against it.

Modelling conventions.

* A JavaScript number is an IEEE-754 double.  The program applies only
  truthiness, `isNaN` and the relational operators to numbers, and on doubles
  these are exact, so a number is modelled as `NaN`, one of the two infinities,
  or a finite rational (`-0` and `+0` are both falsy and compare equal, so they
  are one value).  Where a caller forms a sum of integers, the sum is rounded
  to a double (`jsAddInt`).
* The DOM (show / hide / text updates) is an external collaborator and is not
  part of the state; the page elements the module reads are assumed present.
* `localStorage`, the Firebase listener registry, the event bus and the toast
  are represented by their observable content: the one storage slot used by
  the module and whether it accepts a write, the list of registered value
  callbacks, the values the Firebase client holds, and an effect log.
-/

namespace Auction

/-! ## JavaScript values -/

/-- A JavaScript `number`: `NaN`, `-Infinity`, a finite value, `+Infinity`. -/
inductive JSNum where
  | nan
  | negInf
  | fin (q : ℚ)
  | posInf
  deriving DecidableEq

/-- The values a numeric parameter can hold: `undefined`, `null` or a number. -/
inductive JSVal where
  | undefined
  | null
  | num (n : JSNum)
  deriving DecidableEq

/-- ECMAScript `ToBoolean`: `undefined`, `null`, `NaN` and zero are falsy. -/
def JSVal.truthy : JSVal → Bool
  | .undefined => false
  | .null => false
  | .num .nan => false
  | .num (.fin q) => !(q == 0)
  | .num .negInf => true
  | .num .posInf => true

/-- ECMAScript `ToNumber`: `undefined` is `NaN`, `null` is `+0`. -/
def JSVal.toNumber : JSVal → JSNum
  | .undefined => .nan
  | .null => .fin 0
  | .num n => n

/-- The global `isNaN(v)`: `ToNumber(v)` is `NaN`. -/
def isNaN (v : JSVal) : Bool :=
  match v.toNumber with
  | .nan => true
  | _ => false

/-- ECMAScript `Number::lessThan(x, y)`; `none` is the result `undefined`
that a `NaN` operand produces. -/
def JSNum.lessThan : JSNum → JSNum → Option Bool
  | .nan, _ => none
  | _, .nan => none
  | .negInf, .negInf => some false
  | .negInf, _ => some true
  | .fin _, .negInf => some false
  | .fin a, .fin b => some (decide (a < b))
  | .fin _, .posInf => some true
  | .posInf, _ => some false

/-- The operator `a <= b`: evaluate `b < a`; `true` or `undefined` gives
`false`, otherwise `true`. -/
def jsLe (a b : JSVal) : Bool :=
  match JSNum.lessThan b.toNumber a.toNumber with
  | some false => true
  | _ => false

/-- The operator `a > b`: evaluate `b < a`; `undefined` gives `false`. -/
def jsGt (a b : JSVal) : Bool :=
  match JSNum.lessThan b.toNumber a.toNumber with
  | some r => r
  | none => false

/-- The number of binary digits of `n`; the fuel bounds the recursion and `n`
itself is enough. -/
def bitLength : Nat → Nat → Nat
  | 0, _ => 0
  | fuel + 1, n => if n = 0 then 0 else bitLength fuel (n / 2) + 1

/-- The natural number a double takes for `n`: `n` itself up to `2 ^ 53`, and
beyond that `n` rounded to 53 significant binary digits, a tie going to the
even significand. -/
def roundNat (n : Nat) : Nat :=
  if n ≤ 2 ^ 53 then n
  else
    let e := bitLength n n - 53
    let q := n / 2 ^ e
    let r := n % 2 ^ e
    let half := 2 ^ (e - 1)
    if r < half then q * 2 ^ e
    else if half < r then (q + 1) * 2 ^ e
    else if q % 2 = 0 then q * 2 ^ e
    else (q + 1) * 2 ^ e

/-- The number that results when an integer is rounded to a double: an
infinity when the rounded magnitude reaches `2 ^ 1024`. -/
def JSNum.ofInt (z : ℤ) : JSNum :=
  if 2 ^ 1024 ≤ roundNat z.natAbs then (if z < 0 then .negInf else .posInf)
  else .fin (if z < 0 then -(roundNat z.natAbs : ℚ) else (roundNat z.natAbs : ℚ))

/-- The operator `a + b` on two numbers that hold the integers `a` and `b`:
the exact sum, rounded to a double. -/
def jsAddInt (a b : ℤ) : JSNum :=
  JSNum.ofInt (a + b)

/-! ## `validateBid` (helpers.js) -/

/-- The object returned by `validateBid`: `valid` and an optional `message`. -/
structure BidResult where
  valid : Bool
  message : Option String
  deriving DecidableEq, Repr

/-- The constant `BID_RULES.MIN_BID_INCREMENT` of constants.js (not read by
`validateBid`). -/
def BID_RULES.MIN_BID_INCREMENT : ℚ := 10

/-- Embedding of `validateBid(bidAmount, currentBid, userPoints)`. -/
def validateBid (bidAmount currentBid userPoints : JSVal) : BidResult :=
  if !bidAmount.truthy || isNaN bidAmount then
    { valid := false, message := some "입찰 금액을 입력하세요" }
  else if jsLe bidAmount currentBid then
    { valid := false, message := some "현재 입찰가보다 높은 금액을 입력하세요" }
  else if jsGt bidAmount userPoints then
    { valid := false, message := some "보유 포인트가 부족합니다" }
  else
    { valid := true, message := none }

/-! ### The specification's reference for bid validation -/

/-- A numeric quantity of the specification: a finite rational or one of the
two infinities. -/
inductive Numeric where
  | negInf
  | fin (q : ℚ)
  | posInf
  deriving DecidableEq

/-- The linear order of the extended rationals, `a ≤ b`. -/
def Numeric.le : Numeric → Numeric → Bool
  | .negInf, _ => true
  | .fin _, .negInf => false
  | .fin a, .fin b => decide (a ≤ b)
  | .fin _, .posInf => true
  | .posInf, .posInf => true
  | .posInf, _ => false

/-- Strict order of the extended rationals, `a < b`. -/
def Numeric.lt (a b : Numeric) : Bool := !(Numeric.le b a)

instance : LE Numeric := ⟨fun a b => Numeric.le a b = true⟩

instance : LT Numeric := ⟨fun a b => Numeric.lt a b = true⟩

instance (a b : Numeric) : Decidable (a ≤ b) :=
  inferInstanceAs (Decidable (Numeric.le a b = true))

instance (a b : Numeric) : Decidable (a < b) :=
  inferInstanceAs (Decidable (Numeric.lt a b = true))

/-- The number that represents a numeric quantity. -/
def JSNum.ofNumeric : Numeric → JSNum
  | .negInf => .negInf
  | .fin q => .fin q
  | .posInf => .posInf

/-- The numeric quantity a value denotes, `none` when the value is absent
(`undefined`, `null`) or not numeric (`NaN`). -/
def JSVal.numeric? : JSVal → Option Numeric
  | .undefined => none
  | .null => none
  | .num .nan => none
  | .num .negInf => some .negInf
  | .num (.fin q) => some (.fin q)
  | .num .posInf => some .posInf

/-- The failure reasons of the specification's `BidValidator`. -/
inductive BidReason where
  | NotANumber
  | BelowCurrentBid
  | InsufficientBalance
  deriving DecidableEq, Repr

/-- The message by which the program reports each reason. -/
def BidReason.message : BidReason → String
  | .NotANumber => "입찰 금액을 입력하세요"
  | .BelowCurrentBid => "현재 입찰가보다 높은 금액을 입력하세요"
  | .InsufficientBalance => "보유 포인트가 부족합니다"

/-- An invalid result carrying a reason. -/
def BidResult.invalid (r : BidReason) : BidResult :=
  { valid := false, message := some r.message }

/-- The valid result. -/
def BidResult.ok : BidResult :=
  { valid := true, message := none }

/-- The first-match reference as the specification words it: `NotANumber` when
the bid is absent or not numeric, else `BelowCurrentBid` when it is at most the
current bid, else `InsufficientBalance` when it exceeds the balance, else
valid. -/
def validateSpec (bidAmount : Option Numeric) (currentBid balance : Numeric) : BidResult :=
  match bidAmount with
  | none => .invalid .NotANumber
  | some b =>
    if b ≤ currentBid then .invalid .BelowCurrentBid
    else if balance < b then .invalid .InsufficientBalance
    else .ok

/-- The first-match reference with zero counted as "no amount entered". -/
def validateSpecZero (bidAmount : Option Numeric) (currentBid balance : Numeric) : BidResult :=
  match bidAmount with
  | none => .invalid .NotANumber
  | some b =>
    if b = .fin 0 then .invalid .NotANumber
    else if b ≤ currentBid then .invalid .BelowCurrentBid
    else if balance < b then .invalid .InsufficientBalance
    else .ok

/-! ## Configuration (constants.js, auth.js) -/

/-- The constant `ROLES.ADMIN`. -/
def ROLES.ADMIN : String := "admin"

/-- The constant `ROLES.CAPTAIN`. -/
def ROLES.CAPTAIN : String := "captain"

/-- The constant `ROLES.VIEWER`. -/
def ROLES.VIEWER : String := "viewer"

/-- The constant `STORAGE_KEYS.USER_SESSION`. -/
def STORAGE_KEYS.USER_SESSION : String := "vrcst_user_session"

/-- An entry of `TEAMS`. -/
structure Team where
  id : String
  displayName : String
  initialPoints : Int
  color : String
  deriving DecidableEq, Repr

/-- The `TEAMS` object literal, as its own properties in source order. -/
def TEAMS : List (String × Team) :=
  [ ("team_alpha",
      { id := "team_alpha", displayName := "Team Alpha", initialPoints := 1000,
        color := "#ff4d6d" }),
    ("team_bravo",
      { id := "team_bravo", displayName := "Team Bravo", initialPoints := 1000,
        color := "#536493" }),
    ("team_charlie",
      { id := "team_charlie", displayName := "Team Charlie", initialPoints := 1000,
        color := "#c77dff" }),
    ("team_delta",
      { id := "team_delta", displayName := "Team Delta", initialPoints := 1000,
        color := "#ef5a6f" }) ]

/-- An entry of `AUTH_CREDENTIALS`. -/
structure Credential where
  password : String
  role : String
  deriving DecidableEq, Repr

/-- The `AUTH_CREDENTIALS` object literal, as its own properties. -/
def AUTH_CREDENTIALS : List (String × Credential) :=
  [ ("admin", { password := "admin123", role := ROLES.ADMIN }),
    ("team_alpha", { password := "alpha123", role := ROLES.CAPTAIN }),
    ("team_bravo", { password := "bravo123", role := ROLES.CAPTAIN }),
    ("team_charlie", { password := "charlie123", role := ROLES.CAPTAIN }),
    ("team_delta", { password := "delta123", role := ROLES.CAPTAIN }) ]

/-- The property names every object literal inherits from `Object.prototype`
in a browser; each of them holds a function (or, for `__proto__`, the
prototype object), hence a truthy value without fields of the table. -/
def objectPrototypeKeys : List String :=
  [ "constructor", "__defineGetter__", "__defineSetter__", "hasOwnProperty",
    "__lookupGetter__", "__lookupSetter__", "isPrototypeOf", "propertyIsEnumerable",
    "toString", "valueOf", "__proto__", "toLocaleString" ]

/-- The result of the property read `table[key]` on an object literal. -/
inductive Member (α : Type) where
  | own (v : α)
  | inherited
  | undefined
  deriving DecidableEq, Repr

/-- The property read `table[key]`: the own property if there is one, else what
the prototype chain supplies, else `undefined`. -/
def getMember {α : Type} (table : List (String × α)) (key : String) : Member α :=
  match table.lookup key with
  | some v => .own v
  | none => if key ∈ objectPrototypeKeys then .inherited else .undefined

/-- Truthiness of a property read: only `undefined` is falsy. -/
def Member.truthy {α : Type} : Member α → Bool
  | .own _ => true
  | .inherited => true
  | .undefined => false

/-! ## Session state (auth.js) -/

/-- The identity object: `currentUser`, the persisted session record and the
detail of the login event. -/
structure User where
  id : String
  role : String
  displayName : String
  points : Int
  deriving DecidableEq, Repr

/-- The value `snapshot.val()` yields when it is an object: its `points`
property, if it has one. -/
structure TeamData where
  points : Option Int
  deriving DecidableEq, Repr

/-- The observable effects of the module. -/
inductive Effect where
  | storageSet (key : String) (value : User)
  | storageRemove (key : String)
  | onValue (path : String) (listener : Nat)
  | off (path : String) (listener : Nat)
  | toast (message : String) (type : String)
  | dispatch (event : String) (detail : Option User)
  | consoleError (message : String)
  deriving DecidableEq, Repr

/-- The module state of auth.js together with the collaborators it acts on.

* `currentUser`, `teamDataListener`: the two module variables; a listener
  closure is identified by the number it was created under.
* `storage`: the content of `localStorage` under `STORAGE_KEYS.USER_SESSION`
  (`JSON.stringify` followed by `JSON.parse` is the identity on a `User`).
* `subscriptions`: the value callbacks registered with Firebase, each with the
  path it was registered on.
* `nextListener`: the number the next closure gets.
* `log`: every effect performed so far, oldest first.
* `sdkCache`: the values the Firebase client currently holds, by path (`none`
  as a value is a cached `null`).  The client holds a value for a path while
  some listener covers it; main.js registers listeners on `players` and `teams`
  at every `userLogin` and never removes them, so after the first login of a
  page visit the balances under `teams` stay cached.
* `setItemFails`: whether `localStorage.setItem` throws at present (quota
  exceeded, storage disabled). -/
structure State where
  currentUser : Option User
  teamDataListener : Option Nat
  storage : Option User
  subscriptions : List (String × Nat)
  nextListener : Nat
  log : List Effect
  sdkCache : List (String × Option TeamData)
  setItemFails : Bool
  deriving DecidableEq, Repr

/-- The state when the page loads: logged out, nothing registered, nothing
cached by the Firebase client, and `localStorage` accepting writes and holding
whatever a previous visit left. -/
def State.initial (persisted : Option User) : State :=
  { currentUser := none, teamDataListener := none, storage := persisted,
    subscriptions := [], nextListener := 0, log := [], sdkCache := [],
    setItemFails := false }

/-- Record an effect. -/
def State.emit (s : State) (e : Effect) : State :=
  { s with log := s.log ++ [e] }

/-- Embedding of `showToast(message, type)` of toast.js: the message shown. -/
def showToast (s : State) (message : String) (type : String) : State :=
  s.emit (.toast message type)

/-- Embedding of `saveToStorage(STORAGE_KEYS.USER_SESSION, value)`: when
`setItem` throws, the `catch` logs the error and nothing is persisted. -/
def saveToStorage (s : State) (value : User) : State :=
  if s.setItemFails then s.emit (.consoleError "Failed to save to storage:")
  else { s with storage := some value }.emit (.storageSet STORAGE_KEYS.USER_SESSION value)

/-- Embedding of `loadFromStorage(STORAGE_KEYS.USER_SESSION)`: the stored record
or `null`. -/
def loadFromStorage (s : State) : Option User :=
  s.storage

/-- Embedding of `clearFromStorage(STORAGE_KEYS.USER_SESSION)`. -/
def clearFromStorage (s : State) : State :=
  { s with storage := none }.emit (.storageRemove STORAGE_KEYS.USER_SESSION)

/-- Firebase `off(ref(database, path), 'value', listener)`: detach the callback
from that path; registrations on other paths stay. -/
def off (s : State) (path : String) (listener : Nat) : State :=
  { s with subscriptions := s.subscriptions.filter (fun r => !(r == (path, listener))) }.emit
    (.off path listener)

/-- The call `window.dispatchEvent(new CustomEvent(event, detail))`. -/
def dispatchEvent (s : State) (event : String) (detail : Option User) : State :=
  s.emit (.dispatch event detail)

/-- The operator `a || b` for a string-or-`undefined` left operand: `undefined` and the
empty string are falsy. -/
def strOr (a : Option String) (b : String) : String :=
  match a with
  | some v => if v = "" then b else v
  | none => b

/-- The operator `a || b` for a number-or-`undefined` left operand: `undefined` and zero are
falsy. -/
def intOr (a : Option Int) (b : Int) : Int :=
  match a with
  | some v => if v = 0 then b else v
  | none => b

/-- The expression `TEAMS[id]?.displayName`, `none` for `undefined`. -/
def teamDisplayName (id : String) : Option String :=
  match getMember TEAMS id with
  | .own t => some t.displayName
  | _ => none

/-- The expression `TEAMS[id]?.initialPoints`, `none` for `undefined`. -/
def teamInitialPoints (id : String) : Option Int :=
  match getMember TEAMS id with
  | .own t => some t.initialPoints
  | _ => none

/-- An exception raised by the program. -/
inductive JSError where
  | typeError
  deriving DecidableEq, Repr

/-- The body of the closure that `setupTeamDataListener` assigns to
`teamDataListener`, called with `snapshot.val()` (`none` for `null`).  The
closure captures no local variable: it reads the module variable
`currentUser` at the time of the call, so every closure the module has created
runs this same body, whichever `listener` it is.  Writing `points` on a `null`
`currentUser` raises a `TypeError`. -/
def teamDataListenerCall (_listener : Nat) (s : State) (snapshot : Option TeamData) :
    Except JSError State :=
  match snapshot with
  | none => .ok s
  | some data =>
    match s.currentUser with
    | none => .error .typeError
    | some u =>
      let points := intOr data.points (intOr (teamInitialPoints u.id) 1000)
      .ok { s with currentUser := some { u with points := points } }

/-- The module state after a call of a listener closure: the state the body
returns, or the state as it was when the body raises. -/
def invokeListener (listener : Nat) (s : State) (snapshot : Option TeamData) : State :=
  match teamDataListenerCall listener s snapshot with
  | .ok s1 => s1
  | .error _ => s

/-- Firebase `onValue(ref(database, path), listener)`: register the callback;
when the client already holds a value for the path it calls the callback with
that value before `onValue` returns. -/
def onValue (s : State) (path : String) (listener : Nat) : State :=
  let s1 :=
    { s with subscriptions := s.subscriptions ++ [(path, listener)] }.emit
      (.onValue path listener)
  match s1.sdkCache.lookup path with
  | some snapshot => invokeListener listener s1 snapshot
  | none => s1

/-- Embedding of `setupTeamDataListener()`. -/
def setupTeamDataListener (s : State) : State :=
  match s.currentUser with
  | none => s
  | some u =>
    if u.role = ROLES.CAPTAIN then
      let teamRef := "teams/" ++ u.id
      let s1 :=
        match s.teamDataListener with
        | some old => off s teamRef old
        | none => s
      let listener := s1.nextListener
      onValue { s1 with teamDataListener := some listener, nextListener := listener + 1 }
        teamRef listener
    else s

/-- Embedding of `updateUIAfterLogin()`; of its body only the call of
`setupTeamDataListener` for a captain acts on the state.  Both callers assign
`currentUser` first, so the `none` case does not occur. -/
def updateUIAfterLogin (s : State) : State :=
  match s.currentUser with
  | none => s
  | some u =>
    if u.role = ROLES.ADMIN then s
    else if u.role = ROLES.CAPTAIN then setupTeamDataListener s
    else s

/-- Embedding of `restoreSession(session)`. -/
def restoreSession (s : State) (session : User) : State :=
  let s1 := { s with currentUser := some session }
  let s2 := updateUIAfterLogin s1
  showToast s2
    ("세션이 복원되었습니다. " ++ strOr (s2.currentUser.map (·.displayName)) "관리자"
      ++ "님 환영합니다!") "success"

/-- Embedding of `validateSession(session)`. -/
def validateSession (s : State) (session : User) : State :=
  if (getMember AUTH_CREDENTIALS session.id).truthy then restoreSession s session
  else clearFromStorage s

/-- Embedding of `initAuth()`; `setupAuthListeners` only wires DOM events to
`login` and `logout`. -/
def initAuth (s : State) : State :=
  match loadFromStorage s with
  | some savedSession =>
    if savedSession.id ≠ "" then validateSession s savedSession else s
  | none => s

/-- Embedding of `login()`, with the two values it reads from the page,
`getValue('teamSelect')` and `getValue('password')`, as arguments. -/
def login (s : State) (teamId password : String) : State :=
  if teamId = "" then showToast s "팀을 선택해주세요" "error"
  else if password = "" then showToast s "비밀번호를 입력해주세요" "error"
  else
    match getMember AUTH_CREDENTIALS teamId with
    | .own cred =>
      if cred.password = password then
        let user : User :=
          { id := teamId, role := cred.role,
            displayName := strOr (teamDisplayName teamId) "관리자",
            points := intOr (teamInitialPoints teamId) 0 }
        let s1 := { s with currentUser := some user }
        let s2 := saveToStorage s1 user
        let s3 := updateUIAfterLogin s2
        let s4 := showToast s3 (user.displayName ++ "님 환영합니다!") "success"
        dispatchEvent s4 "userLogin" s4.currentUser
      else showToast s "로그인 실패: 잘못된 비밀번호" "error"
    | .inherited => showToast s "로그인 실패: 잘못된 비밀번호" "error"
    | .undefined => showToast s "로그인 실패: 잘못된 비밀번호" "error"

/-- Embedding of `logout()`. -/
def logout (s : State) : State :=
  let s1 :=
    match s.teamDataListener, s.currentUser with
    | some listener, some u =>
      { (off s ("teams/" ++ u.id) listener) with teamDataListener := none }
    | _, _ => s
  let s2 := { s1 with currentUser := none }
  let s3 := clearFromStorage s2
  let s4 := showToast s3 "로그아웃되었습니다" "default"
  dispatchEvent s4 "userLogout" none

/-- Embedding of `getCurrentUser()`. -/
def getCurrentUser (s : State) : Option User :=
  s.currentUser

/-- Embedding of `isAdmin()`, as the truthiness of its result. -/
def isAdmin (s : State) : Bool :=
  match s.currentUser with
  | some u => u.role == ROLES.ADMIN
  | none => false

/-- Embedding of `isCaptain()`, as the truthiness of its result. -/
def isCaptain (s : State) : Bool :=
  match s.currentUser with
  | some u => u.role == ROLES.CAPTAIN
  | none => false

/-- Embedding of `isLoggedIn()`. -/
def isLoggedIn (s : State) : Bool :=
  s.currentUser.isSome

/-- Embedding of `updateUserPoints(points)`. -/
def updateUserPoints (s : State) (points : Int) : State :=
  match s.currentUser with
  | some u =>
    if u.role = ROLES.CAPTAIN then { s with currentUser := some { u with points := points } }
    else s
  | none => s

/-- Embedding of `getUserTeamId()`. -/
def getUserTeamId (s : State) : Option String :=
  s.currentUser.map (·.id)

/-- Embedding of `getUserDisplayName()`. -/
def getUserDisplayName (s : State) : String :=
  match s.currentUser with
  | some u => u.displayName
  | none => "Guest"

/-! ## Histories -/

/-- What can happen to the module: the exported calls, Firebase invoking a
registered value callback with a snapshot, the Firebase client taking up
(`some value`) or dropping (`none`) the value it holds for a path, and
`localStorage` starting or ceasing to refuse writes. -/
inductive Action where
  | initAuth
  | login (teamId password : String)
  | logout
  | deliver (listener : Nat) (snapshot : Option TeamData)
  | updateUserPoints (points : Int)
  | sdkCache (path : String) (held : Option (Option TeamData))
  | setItemFails (fails : Bool)
  deriving DecidableEq, Repr

/-- One action.  Firebase calls only a callback that is registered; an
exception raised by the callback leaves the module state as it was. -/
def step (s : State) : Action → State
  | .initAuth => initAuth s
  | .login teamId password => login s teamId password
  | .logout => logout s
  | .deliver listener snapshot =>
    if s.subscriptions.any (fun r => r.2 == listener) then
      match teamDataListenerCall listener s snapshot with
      | .ok s1 => s1
      | .error _ => s
    else s
  | .updateUserPoints points => updateUserPoints s points
  | .sdkCache path held =>
    let rest := s.sdkCache.filter (fun e => !(e.1 == path))
    match held with
    | some value => { s with sdkCache := (path, value) :: rest }
    | none => { s with sdkCache := rest }
  | .setItemFails fails => { s with setItemFails := fails }

/-- A history: the actions applied in order. -/
def run (s : State) (actions : List Action) : State :=
  actions.foldl step s

/-- The states reachable from a freshly loaded page, whatever was persisted. -/
def Reachable (s : State) : Prop :=
  ∃ (persisted : Option User) (actions : List Action),
    s = run (State.initial persisted) actions

/-- The number of callbacks registered with the external store. -/
def activeSubscriptions (s : State) : Nat :=
  s.subscriptions.length

/-- The log entries that write the persisted session. -/
def storageWrites (log : List Effect) : List Effect :=
  log.filter fun e =>
    match e with
    | .storageSet _ _ => true
    | _ => false

/-- The log entries that dispatch the event of the given name. -/
def eventsNamed (name : String) (log : List Effect) : List Effect :=
  log.filter fun e =>
    match e with
    | .dispatch n _ => n == name
    | _ => false

/-- The identities of the specification: each configured id with its secret
and the identity a successful login has to build (role of the credential
table; display name and initial points of the team, or the default
administrator name and zero points when the id is no team). -/
def configuredLogins : List (String × String × User) :=
  [ ("admin", "admin123",
      { id := "admin", role := "admin", displayName := "관리자", points := 0 }),
    ("team_alpha", "alpha123",
      { id := "team_alpha", role := "captain", displayName := "Team Alpha", points := 1000 }),
    ("team_bravo", "bravo123",
      { id := "team_bravo", role := "captain", displayName := "Team Bravo", points := 1000 }),
    ("team_charlie", "charlie123",
      { id := "team_charlie", role := "captain", displayName := "Team Charlie",
        points := 1000 }),
    ("team_delta", "delta123",
      { id := "team_delta", role := "captain", displayName := "Team Delta", points := 1000 }) ]

/-- The failure classes of `login` in the specification. -/
inductive LoginFailure where
  | MissingSelection
  | MissingSecret
  | InvalidCredentials
  deriving DecidableEq, Repr

/-- The error toast by which the program reports each failure class. -/
def LoginFailure.message : LoginFailure → String
  | .MissingSelection => "팀을 선택해주세요"
  | .MissingSecret => "비밀번호를 입력해주세요"
  | .InvalidCredentials => "로그인 실패: 잘못된 비밀번호"

/-- An action that brings no negative balance into the module: a delivered or
cached `points` value and the argument of `updateUserPoints` are at least
zero. -/
def Action.nonneg : Action → Prop
  | .deliver _ (some data) => ∀ p, data.points = some p → 0 ≤ p
  | .updateUserPoints points => 0 ≤ points
  | .sdkCache _ (some (some data)) => ∀ p, data.points = some p → 0 ≤ p
  | _ => True

/-- No balance held by the module or cached for it is negative: neither that
of the current identity, nor that of the persisted record, nor one the Firebase
client holds. -/
def PointsNonneg (s : State) : Prop :=
  (∀ u, s.currentUser = some u → 0 ≤ u.points)
    ∧ (∀ r, s.storage = some r → 0 ≤ r.points)
    ∧ ∀ path data p, (path, some data) ∈ s.sdkCache → data.points = some p → 0 ≤ p

/-! ## Theorems: bid validation -/

theorem Numeric.le_def (a b : Numeric) : a ≤ b ↔ Numeric.le a b = true := Iff.rfl

theorem Numeric.lt_def (a b : Numeric) : a < b ↔ Numeric.lt a b = true := Iff.rfl

theorem numeric_ofNumeric (x : Numeric) :
    (JSVal.num (JSNum.ofNumeric x)).numeric? = some x := by
  cases x <;> rfl

theorem validateBid_eq_validateSpecZero (b : JSVal) (c u : Numeric) :
    validateBid b (.num (.ofNumeric c)) (.num (.ofNumeric u))
      = validateSpecZero b.numeric? c u := by
  rcases b with _ | _ | (_ | _ | q | _) <;> rcases c with _ | c | _ <;>
    rcases u with _ | u | _ <;>
  simp [validateBid, validateSpecZero, JSVal.truthy, isNaN, JSVal.toNumber, jsLe, jsGt,
    JSNum.lessThan, JSVal.numeric?, JSNum.ofNumeric, BidResult.invalid, BidResult.ok,
    BidReason.message, Numeric.le, Numeric.lt, Numeric.le_def, Numeric.lt_def]
  all_goals
    by_cases h0 : q = 0 <;> by_cases h : c < q <;>
    simp [h0, h, not_le.mpr, not_lt.mp]

/-- Claim C1 (counterexample). A bid of zero is not classified by the first-match
reference: `validateBid(0, 0, 500)` reports the not-a-number message where the
reference says `BelowCurrentBid`, and `validateBid(0, -1, 500)` is invalid where
the reference says valid. -/
theorem validateBid_zero_not_first_match :
    validateBid (.num (.fin 0)) (.num (.ofNumeric (.fin 0))) (.num (.ofNumeric (.fin 500)))
        = .invalid .NotANumber
      ∧ validateSpec (JSVal.num (.fin 0)).numeric? (.fin 0) (.fin 500)
        = .invalid .BelowCurrentBid
      ∧ validateBid (.num (.fin 0)) (.num (.ofNumeric (.fin 0))) (.num (.ofNumeric (.fin 500)))
        ≠ validateSpec (JSVal.num (.fin 0)).numeric? (.fin 0) (.fin 500)
      ∧ (validateBid (.num (.fin 0)) (.num (.ofNumeric (.fin (-1))))
          (.num (.ofNumeric (.fin 500)))).valid = false
      ∧ (validateSpec (JSVal.num (.fin 0)).numeric? (.fin (-1)) (.fin 500)).valid = true := by
  simp [validateBid, validateSpec, JSVal.truthy, isNaN, JSVal.toNumber, jsLe, jsGt,
    JSNum.lessThan, JSVal.numeric?, JSNum.ofNumeric, BidResult.invalid, BidResult.ok,
    BidReason.message, Numeric.le, Numeric.lt, Numeric.le_def, Numeric.lt_def]
  norm_num

/-- Claim C1 (amended). For every bid value and all numeric current bid and
balance, `validateBid` equals the first-match reference in which the
not-a-number reason is given exactly when the bid is absent, not numeric or
zero; then `BelowCurrentBid` when bid ≤ current bid; then
`InsufficientBalance` when bid > balance; otherwise valid.  The four sample
calls of the specification evaluate as it lists them. -/
theorem validateBid_first_match_zero :
    (∀ (b : JSVal) (c u : Numeric),
        validateBid b (.num (.ofNumeric c)) (.num (.ofNumeric u))
          = validateSpecZero b.numeric? c u)
      ∧ validateBid (.num (.fin 100)) (.num (.fin 100)) (.num (.fin 500))
          = .invalid .BelowCurrentBid
      ∧ validateBid (.num (.fin 150)) (.num (.fin 100)) (.num (.fin 500)) = .ok
      ∧ validateBid (.num (.fin 600)) (.num (.fin 100)) (.num (.fin 500))
          = .invalid .InsufficientBalance
      ∧ validateBid (.num .nan) (.num (.fin 100)) (.num (.fin 500))
          = .invalid .NotANumber := by
  refine ⟨validateBid_eq_validateSpecZero, ?_, ?_, ?_, ?_⟩ <;>
  simp [validateBid, JSVal.truthy, isNaN, JSVal.toNumber, jsLe, jsGt,
    JSNum.lessThan, BidResult.invalid, BidResult.ok, BidReason.message] <;> norm_num

/-- Claim C2. `validateBid` never accepts a non-raising or overspending bid: for
numeric bid, current bid and balance, a valid result implies
current bid < bid ≤ balance; and a bid equal to the current bid is invalid
whatever the value and the balance. -/
theorem validateBid_valid_sound (b c u : Numeric)
    (h : (validateBid (.num (.ofNumeric b)) (.num (.ofNumeric c))
      (.num (.ofNumeric u))).valid = true) :
    c < b ∧ b ≤ u ∧ ∀ x y : JSVal, (validateBid x x y).valid = false := by
  rw [validateBid_eq_validateSpecZero, numeric_ofNumeric] at h
  have key : c < b ∧ b ≤ u := by
    simp only [validateSpecZero] at h
    split_ifs at h with h0 h1 h2
    · simp [BidResult.invalid] at h
    · simp [BidResult.invalid] at h
    · simp [BidResult.invalid] at h
    · refine ⟨?_, ?_⟩
      · simpa [Numeric.le_def, Numeric.lt_def, Numeric.lt] using h1
      · simpa [Numeric.le_def, Numeric.lt_def, Numeric.lt] using h2
  refine ⟨key.1, key.2, ?_⟩
  intro x y
  rcases x with _ | _ | (_ | _ | q | _) <;>
    simp [validateBid, JSVal.truthy, isNaN, JSVal.toNumber, jsLe, jsGt, JSNum.lessThan]
  by_cases h0 : q = 0 <;> simp [h0]

/-- Claim C2 (witness). The accepted bid 150 over 100 with balance 500. -/
theorem validateBid_valid_sound_witness :
    (Numeric.fin 100 < Numeric.fin 150 ∧ Numeric.fin 150 ≤ Numeric.fin 500)
      ∧ (validateBid (.num (.fin 150)) (.num (.fin 100)) (.num (.fin 500))).valid = true :=
  have h : (validateBid (.num (.ofNumeric (.fin 150))) (.num (.ofNumeric (.fin 100)))
      (.num (.ofNumeric (.fin 500)))).valid = true := by
    simp [validateBid, JSVal.truthy, isNaN, JSVal.toNumber, jsLe, jsGt, JSNum.lessThan,
      JSNum.ofNumeric]
    norm_num
  ⟨⟨(validateBid_valid_sound (.fin 150) (.fin 100) (.fin 500) h).1,
    (validateBid_valid_sound (.fin 150) (.fin 100) (.fin 500) h).2.1⟩, h⟩

/-! ## Theorems: session lifecycle -/

/-- The identity that is current after `updateUIAfterLogin` when `u` was
current before: for a captain whose path has a cached object, the callback has
run with that object. -/
theorem updateUIAfterLogin_currentUser (s : State) (u : User) (hu : s.currentUser = some u) :
    (updateUIAfterLogin s).currentUser
      = some (if u.role = ROLES.CAPTAIN then
          match s.sdkCache.lookup ("teams/" ++ u.id) with
          | some (some data) =>
            { u with points := intOr data.points (intOr (teamInitialPoints u.id) 1000) }
          | _ => u
        else u) := by
  have hac : ROLES.ADMIN ≠ ROLES.CAPTAIN := by decide
  have hca : ROLES.CAPTAIN ≠ ROLES.ADMIN := by decide
  unfold updateUIAfterLogin
  simp only [hu]
  by_cases ha : u.role = ROLES.ADMIN
  · have hc : u.role ≠ ROLES.CAPTAIN := by rw [ha]; exact hac
    simp [ha, hc, hu, hac]
  · by_cases hc : u.role = ROLES.CAPTAIN
    · simp only [ha, hc, if_false, if_true, setupTeamDataListener, hu]
      rcases hl : s.teamDataListener with _ | old <;>
      rcases hk : s.sdkCache.lookup ("teams/" ++ u.id) with _ | (_ | data) <;>
      simp [onValue, off, State.emit, hk, invokeListener, teamDataListenerCall, hu, hca] <;>
      exact hc
    · simp [ha, hc, hu]

/-- The effects of `updateUIAfterLogin`: it only detaches and registers
callbacks, and leaves the storage alone. -/
theorem updateUIAfterLogin_log (s : State) :
    (updateUIAfterLogin s).storage = s.storage
      ∧ ∃ effects, (updateUIAfterLogin s).log = s.log ++ effects
        ∧ storageWrites effects = [] ∧ eventsNamed "userLogin" effects = [] := by
  have hca : ROLES.CAPTAIN ≠ ROLES.ADMIN := by decide
  unfold updateUIAfterLogin
  rcases hu : s.currentUser with _ | u
  · exact ⟨rfl, [], by simp, rfl, rfl⟩
  · by_cases ha : u.role = ROLES.ADMIN
    · exact ⟨by simp [ha], [], by simp [ha], rfl, rfl⟩
    · by_cases hc : u.role = ROLES.CAPTAIN
      · simp only [ha, hc, if_false, if_true, setupTeamDataListener, hu]
        rcases hl : s.teamDataListener with _ | old
        · refine ⟨?_, [.onValue ("teams/" ++ u.id) s.nextListener], ?_, rfl, rfl⟩ <;>
          rcases hk : s.sdkCache.lookup ("teams/" ++ u.id) with _ | (_ | data) <;>
          simp [onValue, State.emit, hk, invokeListener, teamDataListenerCall, hu, hca]
        · refine ⟨?_, [.off ("teams/" ++ u.id) old,
              .onValue ("teams/" ++ u.id) s.nextListener], ?_, rfl, rfl⟩ <;>
          rcases hk : s.sdkCache.lookup ("teams/" ++ u.id) with _ | (_ | data) <;>
          simp [onValue, off, State.emit, hk, invokeListener, teamDataListenerCall, hu, hca]
      · exact ⟨by simp [ha, hc], [], by simp [ha, hc], rfl, rfl⟩

/-- The shape of a successful `login`: the identity is built, saved, the UI is
updated (subscribing a captain), and the event carries the identity that is
current at that moment. -/
theorem login_ok (s : State) (teamId password : String) (cred : Credential) (user : User)
    (h1 : teamId ≠ "") (h2 : password ≠ "")
    (h : AUTH_CREDENTIALS.lookup teamId = some cred) (hp : cred.password = password)
    (huser : user = { id := teamId, role := cred.role,
                      displayName := strOr (teamDisplayName teamId) "관리자",
                      points := intOr (teamInitialPoints teamId) 0 }) :
    login s teamId password
      = dispatchEvent
          (showToast
            (updateUIAfterLogin (saveToStorage { s with currentUser := some user } user))
            (user.displayName ++ "님 환영합니다!") "success")
          "userLogin"
          (updateUIAfterLogin
            (saveToStorage { s with currentUser := some user } user)).currentUser := by
  subst huser
  simp [login, h1, h2, getMember, h, hp, showToast, dispatchEvent, State.emit]

/-- What a successful `login` establishes, for the identity `user` it builds. -/
theorem login_ok_spec (s : State) (teamId password : String) (cred : Credential)
    (user live : User) (h1 : teamId ≠ "") (h2 : password ≠ "")
    (h : AUTH_CREDENTIALS.lookup teamId = some cred) (hp : cred.password = password)
    (huser : user = { id := teamId, role := cred.role,
                      displayName := strOr (teamDisplayName teamId) "관리자",
                      points := intOr (teamInitialPoints teamId) 0 })
    (hlive : live = if user.role = ROLES.CAPTAIN then
        match s.sdkCache.lookup ("teams/" ++ user.id) with
        | some (some data) =>
          { user with points := intOr data.points (intOr (teamInitialPoints user.id) 1000) }
        | _ => user
      else user) :
    (login s teamId password).currentUser = some live
      ∧ (login s teamId password).log.getLast? = some (.dispatch "userLogin" (some live))
      ∧ ∃ effects, (login s teamId password).log = s.log ++ effects
        ∧ eventsNamed "userLogin" effects = [.dispatch "userLogin" (some live)]
        ∧ (s.setItemFails = false →
            (login s teamId password).storage = some user
              ∧ storageWrites effects = [.storageSet STORAGE_KEYS.USER_SESSION user])
        ∧ (s.setItemFails = true →
            (login s teamId password).storage = s.storage ∧ storageWrites effects = []) := by
  rw [login_ok s teamId password cred user h1 h2 h hp huser]
  generalize hS2 : saveToStorage { s with currentUser := some user } user = S2
  have hS2cur : S2.currentUser = some user := by
    rw [← hS2]; unfold saveToStorage; split <;> rfl
  have hS2cache : S2.sdkCache = s.sdkCache := by
    rw [← hS2]; unfold saveToStorage; split <;> rfl
  have hcur := updateUIAfterLogin_currentUser S2 user hS2cur
  rw [hS2cache, ← hlive] at hcur
  obtain ⟨hst, effs, hlog, hw, he⟩ := updateUIAfterLogin_log S2
  have hwapp : ∀ pre post : List Effect,
      storageWrites (pre ++ effs ++ post) = storageWrites pre ++ storageWrites post := by
    intro pre post
    simp only [storageWrites, List.filter_append] at hw ⊢
    rw [hw, List.append_nil]
  have heapp : ∀ pre post : List Effect,
      eventsNamed "userLogin" (pre ++ effs ++ post)
        = eventsNamed "userLogin" pre ++ eventsNamed "userLogin" post := by
    intro pre post
    simp only [eventsNamed, List.filter_append] at he ⊢
    rw [he, List.append_nil]
  refine ⟨by simpa [dispatchEvent, showToast, State.emit] using hcur,
    by simp [dispatchEvent, showToast, State.emit, hcur], ?_⟩
  by_cases hf : s.setItemFails = true
  · have hS2log : S2.log = s.log ++ [.consoleError "Failed to save to storage:"] := by
      rw [← hS2]; simp [saveToStorage, hf, State.emit]
    have hS2st : S2.storage = s.storage := by
      rw [← hS2]; simp [saveToStorage, hf, State.emit]
    refine ⟨[.consoleError "Failed to save to storage:"] ++ effs
      ++ [.toast (user.displayName ++ "님 환영합니다!") "success",
          .dispatch "userLogin" (some live)], ?_, ?_, ?_, ?_⟩
    · simp [dispatchEvent, showToast, State.emit, hlog, hcur, hS2log]
    · rw [heapp]; rfl
    · intro h0
      rw [hf] at h0
      cases h0
    · intro _
      refine ⟨?_, ?_⟩
      · simp only [dispatchEvent, showToast, State.emit, hst, hS2st]
      · rw [hwapp]; rfl
  · have hf0 : s.setItemFails = false := by simpa using hf
    have hS2log : S2.log = s.log ++ [.storageSet STORAGE_KEYS.USER_SESSION user] := by
      rw [← hS2]; simp [saveToStorage, hf0, State.emit]
    have hS2st : S2.storage = some user := by
      rw [← hS2]; simp [saveToStorage, hf0, State.emit]
    refine ⟨[.storageSet STORAGE_KEYS.USER_SESSION user] ++ effs
      ++ [.toast (user.displayName ++ "님 환영합니다!") "success",
          .dispatch "userLogin" (some live)], ?_, ?_, ?_, ?_⟩
    · simp [dispatchEvent, showToast, State.emit, hlog, hcur, hS2log]
    · rw [heapp]; rfl
    · intro _
      refine ⟨?_, ?_⟩
      · simp only [dispatchEvent, showToast, State.emit, hst, hS2st]
      · rw [hwapp]; rfl
    · intro h0
      rw [hf0] at h0
      cases h0

/-- Each configured login is an entry of the credential table, and its
identity is the one `login` builds from the table and the team configuration. -/
theorem configuredLogins_spec (teamId password : String) (user : User)
    (h : (teamId, password, user) ∈ configuredLogins) :
    ∃ cred, AUTH_CREDENTIALS.lookup teamId = some cred ∧ cred.password = password
      ∧ teamId ≠ "" ∧ password ≠ ""
      ∧ user = { id := teamId, role := cred.role,
                 displayName := strOr (teamDisplayName teamId) "관리자",
                 points := intOr (teamInitialPoints teamId) 0 }
      ∧ (user.role = ROLES.CAPTAIN → intOr (teamInitialPoints teamId) 1000 = user.points) := by
  simp only [configuredLogins, List.mem_cons, Prod.mk.injEq, List.mem_singleton,
    List.not_mem_nil, or_false] at h
  rcases h with ⟨rfl, rfl, rfl⟩ | ⟨rfl, rfl, rfl⟩ | ⟨rfl, rfl, rfl⟩ | ⟨rfl, rfl, rfl⟩
    | ⟨rfl, rfl, rfl⟩
  · exact ⟨⟨"admin123", "admin"⟩, by decide, rfl, by decide, by decide, by decide, by decide⟩
  · exact ⟨⟨"alpha123", "captain"⟩, by decide, rfl, by decide, by decide, by decide, by decide⟩
  · exact ⟨⟨"bravo123", "captain"⟩, by decide, rfl, by decide, by decide, by decide, by decide⟩
  · exact ⟨⟨"charlie123", "captain"⟩, by decide, rfl, by decide, by decide, by decide,
      by decide⟩
  · exact ⟨⟨"delta123", "captain"⟩, by decide, rfl, by decide, by decide, by decide, by decide⟩

/-- Claim C3 (counterexample). On a page where `team_alpha` logged in, the
store delivered 750 points (which the client keeps cached) and the captain
logged out, a second login as `team_alpha` ends with the identity and the
`userLogin` event carrying 750 points, not the configured 1000, while the
persisted record holds 1000.  And while `localStorage.setItem` throws, a login
persists nothing. -/
theorem login_not_always_configured_identity :
    (login (run (State.initial none)
        [ .login "team_alpha" "alpha123",
          .sdkCache "teams/team_alpha" (some (some { points := some 750 })),
          .deliver 0 (some { points := some 750 }), .logout ])
        "team_alpha" "alpha123").currentUser
        = some { id := "team_alpha", role := "captain", displayName := "Team Alpha",
                 points := 750 }
      ∧ (login (run (State.initial none)
        [ .login "team_alpha" "alpha123",
          .sdkCache "teams/team_alpha" (some (some { points := some 750 })),
          .deliver 0 (some { points := some 750 }), .logout ])
        "team_alpha" "alpha123").storage
        = some { id := "team_alpha", role := "captain", displayName := "Team Alpha",
                 points := 1000 }
      ∧ (login (run (State.initial none)
        [ .login "team_alpha" "alpha123",
          .sdkCache "teams/team_alpha" (some (some { points := some 750 })),
          .deliver 0 (some { points := some 750 }), .logout ])
        "team_alpha" "alpha123").log.getLast?
        = some (.dispatch "userLogin"
            (some { id := "team_alpha", role := "captain", displayName := "Team Alpha",
                    points := 750 }))
      ∧ (login (run (State.initial none) [.setItemFails true])
          "team_alpha" "alpha123").storage = none
      ∧ storageWrites (login (run (State.initial none) [.setItemFails true])
          "team_alpha" "alpha123").log = [] := by
  decide

/-- Claim C3 (amended). For each of the five configured ids with its correct
secret, and from any state, `login` builds the configured identity (id, role of
the credential table, team display name or the default administrator name,
initial points 1000 or 0) and emits exactly one `userLogin` event, which
carries the current identity.  The current identity is the built one when the
id is the administrator's or the Firebase client holds no balance for the
team's path (nothing, `null`, or an object without points); when the client
already holds a non-zero balance for a captain's path, the subscription's
callback runs during the login and the current identity is the built one with
that balance.  When `localStorage` accepts the write, exactly one
persisted-session write is performed, its value is the built identity, and the
storage then holds it; when `setItem` throws, no write is performed and the
storage keeps its content. -/
theorem login_success (s : State) (teamId password : String) (user : User)
    (h : (teamId, password, user) ∈ configuredLogins) :
    ∃ live effects,
      (login s teamId password).currentUser = some live
        ∧ (login s teamId password).log = s.log ++ effects
        ∧ eventsNamed "userLogin" effects = [.dispatch "userLogin" (some live)]
        ∧ live.id = user.id ∧ live.role = user.role ∧ live.displayName = user.displayName
        ∧ (user.role = ROLES.ADMIN ∨ s.sdkCache.lookup ("teams/" ++ teamId) = none
            ∨ s.sdkCache.lookup ("teams/" ++ teamId) = some none
            ∨ s.sdkCache.lookup ("teams/" ++ teamId) = some (some { points := none }) →
            live = user)
        ∧ (∀ p : Int, p ≠ 0 → user.role = ROLES.CAPTAIN →
            s.sdkCache.lookup ("teams/" ++ teamId) = some (some { points := some p }) →
            live = { user with points := p })
        ∧ (s.setItemFails = false →
            (login s teamId password).storage = some user
              ∧ storageWrites effects = [.storageSet STORAGE_KEYS.USER_SESSION user])
        ∧ (s.setItemFails = true →
            (login s teamId password).storage = s.storage ∧ storageWrites effects = []) := by
  have hac : ROLES.ADMIN ≠ ROLES.CAPTAIN := by decide
  obtain ⟨cred, hl, hp, h1, h2, huser, hpts⟩ := configuredLogins_spec _ _ _ h
  have hid : user.id = teamId := by rw [huser]
  subst hid
  obtain ⟨hcur, -, effects, hlog, hev, hs1, hs2⟩ :=
    login_ok_spec s user.id password cred user _ h1 h2 hl hp huser rfl
  refine ⟨_, effects, hcur, hlog, hev, ?_, ?_, ?_, ?_, ?_, hs1, hs2⟩
  · split
    · split <;> rfl
    · rfl
  · split
    · split <;> rfl
    · rfl
  · split
    · split <;> rfl
    · rfl
  · intro hcase
    by_cases hc : user.role = ROLES.CAPTAIN
    · rcases hcase with ha | hk | hk | hk
      · rw [ha] at hc
        exact absurd hc hac
      · simp [hc, hk]
      · simp [hc, hk]
      · have hp1000 := hpts hc
        rw [if_pos hc, hk]
        show ({ user with points := intOr (teamInitialPoints user.id) 1000 } : User) = user
        rw [hp1000]
    · simp [hc]
  · intro p hp0 hc hk
    simp [hc, hk, intOr, hp0]

/-- Claim C3 (witness). The second login as `team_alpha` on a page whose
client has 750 points cached for the team. -/
theorem login_success_witness :
    (login (run (State.initial none)
        [ .login "team_alpha" "alpha123",
          .sdkCache "teams/team_alpha" (some (some { points := some 750 })),
          .deliver 0 (some { points := some 750 }), .logout ])
        "team_alpha" "alpha123").currentUser
        = some { id := "team_alpha", role := "captain", displayName := "Team Alpha",
                 points := 750 }
      ∧ (login (run (State.initial none)
        [ .login "team_alpha" "alpha123",
          .sdkCache "teams/team_alpha" (some (some { points := some 750 })),
          .deliver 0 (some { points := some 750 }), .logout ])
        "team_alpha" "alpha123").storage
        = some { id := "team_alpha", role := "captain", displayName := "Team Alpha",
                 points := 1000 } := by
  obtain ⟨live, effects, hcur, -, -, -, -, -, -, hp, hs1, -⟩ :=
    login_success
      (run (State.initial none)
        [ .login "team_alpha" "alpha123",
          .sdkCache "teams/team_alpha" (some (some { points := some 750 })),
          .deliver 0 (some { points := some 750 }), .logout ])
      "team_alpha" "alpha123"
      { id := "team_alpha", role := "captain", displayName := "Team Alpha", points := 1000 }
      (by decide)
  have hl := hp 750 (by decide) (by decide) (by decide)
  exact ⟨by rw [hcur, hl], (hs1 (by decide)).1⟩

/-- Claim C4. A failed login changes nothing: when the team id is empty, the
secret is empty, the id is not one of the configured ids, or the secret differs
from the configured one, `login` returns the state it was given (identity,
listener, subscriptions and persisted session as they were) with one error
toast appended to the log, hence no storage write and no `userLogin` event. -/
theorem login_failure (s : State) (teamId password : String)
    (h : teamId = "" ∨ password = "" ∨ AUTH_CREDENTIALS.lookup teamId = none
      ∨ ∃ cred, AUTH_CREDENTIALS.lookup teamId = some cred ∧ cred.password ≠ password) :
    ∃ message, login s teamId password = { s with log := s.log ++ [.toast message "error"] }
      ∧ storageWrites [Effect.toast message "error"] = []
      ∧ eventsNamed "userLogin" [Effect.toast message "error"] = [] := by
  unfold login
  by_cases h1 : teamId = ""
  · exact ⟨"팀을 선택해주세요", by simp [h1, showToast, State.emit], rfl, rfl⟩
  by_cases h2 : password = ""
  · exact ⟨"비밀번호를 입력해주세요", by simp [h1, h2, showToast, State.emit], rfl, rfl⟩
  rcases h with h | h | h | ⟨cred, h, hne⟩
  · exact absurd h h1
  · exact absurd h h2
  · refine ⟨"로그인 실패: 잘못된 비밀번호", ?_, rfl, rfl⟩
    by_cases hk : teamId ∈ objectPrototypeKeys <;>
      simp [h1, h2, getMember, h, hk, showToast, State.emit]
  · refine ⟨"로그인 실패: 잘못된 비밀번호", ?_, rfl, rfl⟩
    simp [h1, h2, getMember, h, hne, showToast, State.emit]

/-- Claim C4 (witness). A wrong secret for `team_alpha` on a freshly loaded page
leaves it logged out with nothing persisted. -/
theorem login_failure_witness :
    ∃ message, login (State.initial none) "team_alpha" "wrong"
        = { State.initial none with log := [.toast message "error"] } := by
  obtain ⟨message, h, -, -⟩ := login_failure (State.initial none) "team_alpha" "wrong"
    (Or.inr (Or.inr (Or.inr ⟨{ password := "alpha123", role := "captain" },
      by decide, by decide⟩)))
  exact ⟨message, h⟩

/-- Claim C5 (failing input). Logging in as `team_alpha` and then as
`team_bravo` without logging out reaches a captain state with two registered
callbacks (the first on `teams/team_alpha` is never detached), and logging in
as `admin` instead reaches an administrator state with one. -/
theorem login_over_login_stacks :
    (∃ s, Reachable s ∧ isCaptain s = true ∧ activeSubscriptions s = 2
        ∧ s.subscriptions = [("teams/team_alpha", 0), ("teams/team_bravo", 1)])
      ∧ ∃ s, Reachable s ∧ isAdmin s = true ∧ activeSubscriptions s = 1
        ∧ s.subscriptions = [("teams/team_alpha", 0)] :=
  ⟨⟨run (State.initial none)
      [.login "team_alpha" "alpha123", .login "team_bravo" "bravo123"],
    ⟨none, _, rfl⟩, by decide, by decide, by decide⟩,
   ⟨run (State.initial none)
      [.login "team_alpha" "alpha123", .login "admin" "admin123"],
    ⟨none, _, rfl⟩, by decide, by decide, by decide⟩⟩

/-- Claim C6 (failing input). After logging in as `team_alpha` and then as
`team_bravo`, `logout` clears the identity, the listener variable and the
persisted record and emits `userLogout`, but the callback registered on
`teams/team_alpha` stays registered with the external store. -/
theorem logout_keeps_stacked_subscription :
    (logout (run (State.initial none)
        [.login "team_alpha" "alpha123", .login "team_bravo" "bravo123"])).currentUser = none
      ∧ (logout (run (State.initial none)
        [.login "team_alpha" "alpha123", .login "team_bravo" "bravo123"])).teamDataListener
          = none
      ∧ (logout (run (State.initial none)
        [.login "team_alpha" "alpha123", .login "team_bravo" "bravo123"])).storage = none
      ∧ (logout (run (State.initial none)
        [.login "team_alpha" "alpha123", .login "team_bravo" "bravo123"])).subscriptions
          = [("teams/team_alpha", 0)] := by
  decide

/-- What `logout` establishes in every state: no identity, no persisted record,
and a `userLogout` event as the last effect. -/
theorem logout_clears (s : State) :
    (logout s).currentUser = none ∧ isLoggedIn (logout s) = false
      ∧ (logout s).storage = none
      ∧ (logout s).log.getLast? = some (.dispatch "userLogout" none) := by
  rcases hl : s.teamDataListener with _ | l <;> rcases hu : s.currentUser with _ | u <;>
    simp [logout, hl, hu, off, clearFromStorage, showToast, dispatchEvent, State.emit,
      isLoggedIn]

/-- Claim C7 (counterexample). A persisted record with the empty id is not
removed by startup restoration: `initAuth` returns the state unchanged, the
record still in storage and no removal performed. -/
theorem initAuth_empty_id_keeps_record :
    AUTH_CREDENTIALS.lookup "" = none
      ∧ (initAuth (State.initial
          (some { id := "", role := "captain", displayName := "Team Alpha",
                  points := 1000 }))).storage
        = some { id := "", role := "captain", displayName := "Team Alpha", points := 1000 }
      ∧ (initAuth (State.initial
          (some { id := "", role := "captain", displayName := "Team Alpha",
                  points := 1000 }))).log = [] := by
  decide

/-- Claim C7 (amended). For every persisted record whose id is a non-empty
string that is neither one of the configured ids nor a property name the
credential table inherits from `Object.prototype`, startup restoration removes
the record from storage (one removal, nothing else) and leaves the state
logged out with no listener and no subscription.  For every record with the
empty id the state is left as it was: logged out, no subscription, the record
still stored. -/
theorem initAuth_unknown_id (session : User) (hne : session.id ≠ "")
    (hid : AUTH_CREDENTIALS.lookup session.id = none)
    (hproto : session.id ∉ objectPrototypeKeys) :
    initAuth (State.initial (some session))
        = { State.initial none with log := [.storageRemove STORAGE_KEYS.USER_SESSION] }
      ∧ ∀ other : User, other.id = "" →
          initAuth (State.initial (some other)) = State.initial (some other) := by
  constructor
  · simp [initAuth, loadFromStorage, State.initial, hne, validateSession, getMember, hid,
      hproto, Member.truthy, clearFromStorage, State.emit]
  · intro other h
    simp [initAuth, loadFromStorage, State.initial, h]

/-- Claim C7 (witness). A record of the unknown id `team_echo`. -/
theorem initAuth_unknown_id_witness :
    initAuth (State.initial
        (some { id := "team_echo", role := "captain", displayName := "Team Echo",
                points := 1000 }))
      = { State.initial none with log := [.storageRemove STORAGE_KEYS.USER_SESSION] } :=
  (initAuth_unknown_id
    { id := "team_echo", role := "captain", displayName := "Team Echo", points := 1000 }
    (by decide) (by decide) (by decide)).1

/-- A persisted record whose id names a member of `Object.prototype` passes
`validateSession`, because `AUTH_CREDENTIALS[session.id]` is then truthy: the
record is restored as the current identity. -/
theorem initAuth_inherited_id_restores :
    (initAuth (State.initial
        (some { id := "toString", role := "admin", displayName := "", points := 0
                }))).currentUser
      = some { id := "toString", role := "admin", displayName := "", points := 0 } := by
  decide

/-- Claim C8 (failing input). After login as `team_alpha`, the delivery of
`points: 0` by the store leaves `Identity.points` at 1000 instead of setting
it to 0, whereas the delivery of `points: 750` sets it to 750. -/
theorem deliver_zero_points_ignored :
    (run (State.initial none)
        [.login "team_alpha" "alpha123", .deliver 0 (some { points := some 0 })]).currentUser
        = some { id := "team_alpha", role := "captain", displayName := "Team Alpha",
                 points := 1000 }
      ∧ (run (State.initial none)
        [.login "team_alpha" "alpha123", .deliver 0 (some { points := some 750 })]).currentUser
        = some { id := "team_alpha", role := "captain", displayName := "Team Alpha",
                 points := 750 } := by
  decide

/-- What the balance callback does with a non-zero delivered value: the points
of the current identity become that value. -/
theorem teamDataListenerCall_nonzero (listener : Nat) (s : State) (u : User) (p : Int)
    (hu : s.currentUser = some u) (hp : p ≠ 0) :
    teamDataListenerCall listener s (some { points := some p })
      = .ok { s with currentUser := some { u with points := p } } := by
  simp [teamDataListenerCall, hu, intOr, hp]

/-- Claim C9 (counterexample). A callback of a torn-down subscription is not
discarded.  After login as `team_alpha`, logout and login as `team_bravo`,
listener 0 is no longer registered, yet calling it with `points: 750` sets the
points of `team_bravo` to 750; and called right after the logout, with no
identity present, it raises a `TypeError`. -/
theorem stale_callback_applied :
    (run (State.initial none)
        [.login "team_alpha" "alpha123", .logout, .login "team_bravo" "bravo123"]).subscriptions
        = [("teams/team_bravo", 1)]
      ∧ (run (State.initial none)
        [.login "team_alpha" "alpha123", .logout, .login "team_bravo" "bravo123"]).currentUser
        = some { id := "team_bravo", role := "captain", displayName := "Team Bravo",
                 points := 1000 }
      ∧ teamDataListenerCall 0
          (run (State.initial none)
            [.login "team_alpha" "alpha123", .logout, .login "team_bravo" "bravo123"])
          (some { points := some 750 })
        = .ok { run (State.initial none)
                  [.login "team_alpha" "alpha123", .logout, .login "team_bravo" "bravo123"] with
                currentUser := some { id := "team_bravo", role := "captain",
                                      displayName := "Team Bravo", points := 750 } }
      ∧ (run (State.initial none) [.login "team_alpha" "alpha123", .logout]).subscriptions = []
      ∧ teamDataListenerCall 0
          (run (State.initial none) [.login "team_alpha" "alpha123", .logout])
          (some { points := some 750 })
        = .error .typeError :=
  ⟨by decide, by decide, rfl, by decide, rfl⟩

/-- Claim C9 (amended). A callback of a torn-down subscription is not
discarded: every listener closure runs the same body on the state of the
moment.  Called with an absent (`null`) payload it completes without error and
leaves the state unchanged.  Called right after a logout, it leaves the module
state as the logout left it, whatever the payload, so the identity stays
absent.  Called while an identity is present with a payload that carries a
non-zero points value, it completes and sets the points of that identity to
the delivered value, changing nothing else. -/
theorem stale_callback_effect (listener : Nat) (s : State) :
    teamDataListenerCall listener s none = .ok s
      ∧ (∀ snapshot, invokeListener listener (logout s) snapshot = logout s)
      ∧ ∀ (u : User) (p : Int), s.currentUser = some u → p ≠ 0 →
          teamDataListenerCall listener s (some { points := some p })
            = .ok { s with currentUser := some { u with points := p } } := by
  have hout : (logout s).currentUser = none := by
    rcases hl : s.teamDataListener with _ | l <;> rcases hu : s.currentUser with _ | u <;>
      simp [logout, hl, hu, off, clearFromStorage, showToast, dispatchEvent, State.emit]
  refine ⟨rfl, ?_, ?_⟩
  · intro snapshot
    cases snapshot <;> simp [invokeListener, teamDataListenerCall, hout]
  · intro u p hu hp
    simp [teamDataListenerCall, hu, intOr, hp]

/-- Claim C10 (counterexample). The second of two logouts is not a no-op: it
removes the storage key, shows the toast and dispatches `userLogout` again, so
two logouts emit two `userLogout` events where one logout emits one. -/
theorem logout_twice_emits_twice :
    eventsNamed "userLogout" (logout (State.initial none)).log
        = [.dispatch "userLogout" none]
      ∧ eventsNamed "userLogout" (logout (logout (State.initial none))).log
        = [.dispatch "userLogout" none, .dispatch "userLogout" none]
      ∧ (logout (logout (State.initial none))).log ≠ (logout (State.initial none)).log := by
  decide

/-- Claim C10 (amended). From every state, a second `logout` leaves the identity,
the listener, the registered subscriptions and the persisted record exactly as
the first left them; it only repeats the effects of a logout: one storage
removal, one toast and one `userLogout` event are appended to the log. -/
theorem logout_logout (s : State) :
    logout (logout s)
      = { logout s with
          log := (logout s).log ++
            [ .storageRemove STORAGE_KEYS.USER_SESSION,
              .toast "로그아웃되었습니다" "default",
              .dispatch "userLogout" none ] } := by
  rcases hl : s.teamDataListener with _ | l <;> rcases hu : s.currentUser with _ | u <;>
    simp [logout, hl, hu, off, clearFromStorage, showToast, dispatchEvent, State.emit]

/-! ## Theorems: balance callback, login classification, restoration -/

theorem lookup_mem {α : Type} (l : List (String × α)) (k : String) (v : α)
    (h : l.lookup k = some v) : (k, v) ∈ l := by
  induction l with
  | nil => simp [List.lookup] at h
  | cons e es ih =>
    obtain ⟨a, b⟩ := e
    by_cases hk : k = a
    · subst hk
      simp [List.lookup] at h
      simp [h]
    · have hb : (k == a) = false := by simpa using hk
      simp [List.lookup, hb] at h
      exact List.mem_cons_of_mem _ (ih h)

theorem team_initialPoints (k : String) (t : Team) (h : TEAMS.lookup k = some t) :
    t.initialPoints = 1000 := by
  have hm := lookup_mem _ _ _ h
  simp only [TEAMS, List.mem_cons, Prod.mk.injEq, List.mem_singleton, List.not_mem_nil,
    or_false] at hm
  rcases hm with ⟨-, rfl⟩ | ⟨-, rfl⟩ | ⟨-, rfl⟩ | ⟨-, rfl⟩ <;> rfl

theorem teamInitialPoints_cases (id : String) :
    teamInitialPoints id = none ∨ teamInitialPoints id = some 1000 := by
  unfold teamInitialPoints getMember
  rcases h : TEAMS.lookup id with _ | t
  · left
    by_cases hk : id ∈ objectPrototypeKeys <;> simp [hk]
  · right
    simp [team_initialPoints id t h]

/-- Claim C11 (counterexample). After login as `team_alpha` and a delivery of
`points: 750`, the delivery of a `null` payload leaves the points at 750; they
are not set back to the configured 1000. -/
theorem deliver_null_keeps_points :
    (run (State.initial none)
        [ .login "team_alpha" "alpha123", .deliver 0 (some { points := some 750 }),
          .deliver 0 none ]).currentUser
      = some { id := "team_alpha", role := "captain", displayName := "Team Alpha",
               points := 750 } := by
  decide

/-- Claim C11 (amended). While the identity of a configured team is present,
a delivered payload that is an object carrying no points value sets
`Identity.points` to the configured initial points of that team, whatever the
points were before; a delivered payload that is absent (`null`) leaves the
state, and so the points, as they were. -/
theorem deliver_without_points (listener : Nat) (s : State) (u : User) (t : Team)
    (hu : s.currentUser = some u) (ht : TEAMS.lookup u.id = some t) :
    teamDataListenerCall listener s (some { points := none })
        = .ok { s with currentUser := some { u with points := t.initialPoints } }
      ∧ teamDataListenerCall listener s none = .ok s := by
  refine ⟨?_, rfl⟩
  have h1 := team_initialPoints u.id t ht
  simp [teamDataListenerCall, hu, intOr, teamInitialPoints, getMember, ht, h1]

/-- Claim C11 (witness). The captain of `team_alpha` holding 750 points
receives an object without points. -/
theorem deliver_without_points_witness :
    teamDataListenerCall 0
        (run (State.initial none)
          [.login "team_alpha" "alpha123", .deliver 0 (some { points := some 750 })])
        (some { points := none })
      = .ok { run (State.initial none)
                [.login "team_alpha" "alpha123", .deliver 0 (some { points := some 750 })] with
              currentUser := some { id := "team_alpha", role := "captain",
                                    displayName := "Team Alpha", points := 1000 } } :=
  (deliver_without_points 0
    (run (State.initial none)
      [.login "team_alpha" "alpha123", .deliver 0 (some { points := some 750 })])
    { id := "team_alpha", role := "captain", displayName := "Team Alpha", points := 750 }
    { id := "team_alpha", displayName := "Team Alpha", initialPoints := 1000,
      color := "#ff4d6d" }
    (by decide) (by decide)).1

theorem onValue_spec (s : State) (path : String) (listener : Nat) :
    (onValue s path listener).storage = s.storage
      ∧ (onValue s path listener).sdkCache = s.sdkCache
      ∧ (onValue s path listener).setItemFails = s.setItemFails
      ∧ ((onValue s path listener).currentUser = s.currentUser
        ∨ ∃ u data, s.currentUser = some u ∧ (path, some data) ∈ s.sdkCache
            ∧ (onValue s path listener).currentUser
              = some { u with
                  points := intOr data.points (intOr (teamInitialPoints u.id) 1000) }) := by
  unfold onValue
  simp only [State.emit]
  rcases hc : s.sdkCache.lookup path with _ | (_ | data)
  · simp
  · simp [invokeListener, teamDataListenerCall]
  · rcases hu : s.currentUser with _ | u
    · simp [invokeListener, teamDataListenerCall, hu]
    · refine ⟨?_, ?_, ?_, Or.inr ⟨u, data, rfl, lookup_mem _ _ _ hc, ?_⟩⟩ <;>
        simp [invokeListener, teamDataListenerCall, hu]

theorem setupTeamDataListener_spec (s : State) :
    (setupTeamDataListener s).storage = s.storage
      ∧ (setupTeamDataListener s).sdkCache = s.sdkCache
      ∧ (setupTeamDataListener s).setItemFails = s.setItemFails
      ∧ ((setupTeamDataListener s).currentUser = s.currentUser
        ∨ ∃ u data, s.currentUser = some u ∧ ("teams/" ++ u.id, some data) ∈ s.sdkCache
            ∧ (setupTeamDataListener s).currentUser
              = some { u with
                  points := intOr data.points (intOr (teamInitialPoints u.id) 1000) }) := by
  unfold setupTeamDataListener
  rcases hu : s.currentUser with _ | u
  · simp [hu]
  · by_cases hr : u.role = ROLES.CAPTAIN
    · simp only [hr, if_true]
      rcases hl : s.teamDataListener with _ | old
      · have h := onValue_spec
          { s with teamDataListener := some s.nextListener,
                   nextListener := s.nextListener + 1 } ("teams/" ++ u.id) s.nextListener
        simpa [hu] using h
      · have h := onValue_spec
          { (off s ("teams/" ++ u.id) old) with
              teamDataListener := some (off s ("teams/" ++ u.id) old).nextListener,
              nextListener := (off s ("teams/" ++ u.id) old).nextListener + 1 }
          ("teams/" ++ u.id) (off s ("teams/" ++ u.id) old).nextListener
        simpa [hu, off, State.emit] using h
    · simp [hr, hu]

theorem updateUIAfterLogin_spec (s : State) :
    (updateUIAfterLogin s).storage = s.storage
      ∧ (updateUIAfterLogin s).sdkCache = s.sdkCache
      ∧ (updateUIAfterLogin s).setItemFails = s.setItemFails
      ∧ ((updateUIAfterLogin s).currentUser = s.currentUser
        ∨ ∃ u data, s.currentUser = some u ∧ ("teams/" ++ u.id, some data) ∈ s.sdkCache
            ∧ (updateUIAfterLogin s).currentUser
              = some { u with
                  points := intOr data.points (intOr (teamInitialPoints u.id) 1000) }) := by
  unfold updateUIAfterLogin
  rcases hu : s.currentUser with _ | u
  · simp [hu]
  · by_cases ha : u.role = ROLES.ADMIN
    · simp [ha, hu]
    · by_cases hc : u.role = ROLES.CAPTAIN
      · have h := setupTeamDataListener_spec s
        simpa [ha, hc, hu] using h
      · simp [ha, hc, hu]

theorem intOr_nonneg (a : Option Int) (b : Int) (ha : ∀ p, a = some p → 0 ≤ p)
    (hb : 0 ≤ b) : 0 ≤ intOr a b := by
  unfold intOr
  rcases a with _ | v
  · exact hb
  · by_cases hv : v = 0
    · simp [hv, hb]
    · simpa [hv] using ha v rfl

theorem teamInitialPoints_nonneg (id : String) (p : Int)
    (h : teamInitialPoints id = some p) : 0 ≤ p := by
  rcases teamInitialPoints_cases id with h0 | h0
  · simp [h0] at h
  · rw [h0] at h
    cases h
    decide

theorem pointsNonneg_of_fields (s t : State) (hc : t.currentUser = s.currentUser)
    (hs : t.storage = s.storage) (hk : t.sdkCache = s.sdkCache) (h : PointsNonneg s) :
    PointsNonneg t := by
  unfold PointsNonneg at *
  rw [hc, hs, hk]
  exact h

theorem updateUIAfterLogin_pointsNonneg (s : State) (h : PointsNonneg s) :
    PointsNonneg (updateUIAfterLogin s) := by
  obtain ⟨hs, hk, -, hc⟩ := updateUIAfterLogin_spec s
  rcases hc with hc | ⟨u, data, -, hmem, hc⟩
  · exact pointsNonneg_of_fields s _ hc hs hk h
  · refine ⟨?_, ?_, ?_⟩
    · intro v hv
      rw [hc] at hv
      cases hv
      exact intOr_nonneg _ _ (fun p hp => h.2.2 _ data p hmem hp)
        (intOr_nonneg _ _ (teamInitialPoints_nonneg u.id) (by decide))
    · rw [hs]
      exact h.2.1
    · rw [hk]
      exact h.2.2

theorem login_pointsNonneg (s : State) (teamId password : String) (h : PointsNonneg s) :
    PointsNonneg (login s teamId password) := by
  unfold login
  by_cases h1 : teamId = ""
  · simpa [h1, showToast, State.emit, PointsNonneg] using h
  by_cases h2 : password = ""
  · simpa [h1, h2, showToast, State.emit, PointsNonneg] using h
  simp only [h1, h2, if_false]
  rcases hm : getMember AUTH_CREDENTIALS teamId with cred | _ | _
  · by_cases hp : cred.password = password
    · have hpts : 0 ≤ intOr (teamInitialPoints teamId) 0 :=
        intOr_nonneg _ _ (teamInitialPoints_nonneg teamId) (le_refl 0)
      simp only [hp, if_true, dispatchEvent, showToast, State.emit]
      refine pointsNonneg_of_fields _ _ rfl rfl rfl (updateUIAfterLogin_pointsNonneg _ ?_)
      unfold saveToStorage
      by_cases hf : s.setItemFails = true
      · simp only [hf, if_true, State.emit]
        refine ⟨?_, h.2.1, h.2.2⟩
        intro u hu
        cases hu
        exact hpts
      · simp only [hf, State.emit]
        refine ⟨?_, ?_, h.2.2⟩
        · intro u hu
          cases hu
          exact hpts
        · intro r hr
          cases hr
          exact hpts
    · simpa [hp, showToast, State.emit, PointsNonneg] using h
  · simpa [showToast, State.emit, PointsNonneg] using h
  · simpa [showToast, State.emit, PointsNonneg] using h

theorem logout_pointsNonneg (s : State) (h : PointsNonneg s) : PointsNonneg (logout s) := by
  rcases hl : s.teamDataListener with _ | l <;> rcases hu : s.currentUser with _ | u <;>
    simpa [logout, hl, hu, off, clearFromStorage, showToast, dispatchEvent, State.emit,
      PointsNonneg] using h.2.2

theorem initAuth_pointsNonneg (s : State) (h : PointsNonneg s) :
    PointsNonneg (initAuth s) := by
  unfold initAuth loadFromStorage
  rcases hs : s.storage with _ | r
  · simpa using h
  · by_cases hid : r.id = ""
    · simpa [hid] using h
    · simp only [ne_eq, hid, not_false_eq_true, if_true, validateSession]
      by_cases hm : (getMember AUTH_CREDENTIALS r.id).truthy = true
      · simp only [hm, if_true, restoreSession, showToast, State.emit]
        refine pointsNonneg_of_fields _ _ rfl rfl rfl (updateUIAfterLogin_pointsNonneg _ ?_)
        refine ⟨?_, h.2.1, h.2.2⟩
        intro u hu
        cases hu
        exact h.2.1 r hs
      · simp only [hm, clearFromStorage, State.emit]
        refine ⟨h.1, ?_, h.2.2⟩
        intro r2 hr
        cases hr

theorem step_pointsNonneg (s : State) (a : Action) (h : PointsNonneg s) (ha : a.nonneg) :
    PointsNonneg (step s a) := by
  cases a with
  | initAuth => exact initAuth_pointsNonneg s h
  | login teamId password => exact login_pointsNonneg s teamId password h
  | logout => exact logout_pointsNonneg s h
  | deliver listener snapshot =>
    simp only [step]
    split
    · rcases snapshot with _ | data
      · simpa [teamDataListenerCall] using h
      · rcases hu : s.currentUser with _ | u
        · simpa [teamDataListenerCall, hu] using h
        · have hpts : 0 ≤ intOr data.points (intOr (teamInitialPoints u.id) 1000) :=
            intOr_nonneg _ _ ha
              (intOr_nonneg _ _ (teamInitialPoints_nonneg u.id) (by decide))
          simp only [teamDataListenerCall, hu]
          refine ⟨?_, h.2.1, h.2.2⟩
          intro v hv
          cases hv
          exact hpts
    · exact h
  | updateUserPoints points =>
    simp only [step, updateUserPoints]
    rcases hu : s.currentUser with _ | u
    · simpa [hu] using h
    · by_cases hr : u.role = ROLES.CAPTAIN
      · simp only [hr, if_true]
        refine ⟨?_, h.2.1, h.2.2⟩
        intro v hv
        cases hv
        exact ha
      · simpa [hr] using h
  | sdkCache path held =>
    have hrest : ∀ q data p,
        (q, some data) ∈ s.sdkCache.filter (fun e => !(e.1 == path)) →
        data.points = some p → 0 ≤ p :=
      fun q data p hq hp => h.2.2 q data p (List.mem_of_mem_filter hq) hp
    rcases held with _ | value
    · exact ⟨h.1, h.2.1, hrest⟩
    · refine ⟨h.1, h.2.1, ?_⟩
      intro q data p hq hp
      rcases List.mem_cons.mp hq with heq | hq2
      · rcases value with _ | vdata
        · cases heq
        · cases heq
          exact ha p hp
      · exact hrest q data p hq2 hp
  | setItemFails fails => exact h

theorem run_pointsNonneg (actions : List Action) (s : State) (h : PointsNonneg s)
    (ha : ∀ a ∈ actions, a.nonneg) : PointsNonneg (run s actions) := by
  induction actions generalizing s with
  | nil => exact h
  | cons a rest ih =>
    have hstep := step_pointsNonneg s a h (ha a (List.mem_cons_self _ _))
    exact ih (step s a) hstep (fun b hb => ha b (List.mem_cons_of_mem _ hb))

/-- Claim C12 (counterexample). After login as `team_alpha`,
`updateUserPoints(-5)` leaves a present identity with negative points; so does
the restoration of a persisted record that holds negative points, and so does a
delivered payload with negative points. -/
theorem points_can_be_negative :
    (run (State.initial none)
        [.login "team_alpha" "alpha123", .updateUserPoints (-5)]).currentUser
        = some { id := "team_alpha", role := "captain", displayName := "Team Alpha",
                 points := -5 }
      ∧ (run (State.initial
            (some { id := "team_alpha", role := "captain", displayName := "Team Alpha",
                    points := -5 }))
          [.initAuth]).currentUser
        = some { id := "team_alpha", role := "captain", displayName := "Team Alpha",
                 points := -5 }
      ∧ (run (State.initial none)
          [.login "team_alpha" "alpha123",
           .deliver 0 (some { points := some (-5) })]).currentUser
        = some { id := "team_alpha", role := "captain", displayName := "Team Alpha",
                 points := -5 }
      ∧ ((-5 : Int) < 0) := by
  decide

/-- Claim C12 (amended). The module adds no negative balance of its own: when
the record persisted at page load, if any, holds points of at least zero, and
every `updateUserPoints` argument and every delivered points value of the
history is at least zero, then in the state reached by any sequence of
`initAuth`, `login`, `logout`, `updateUserPoints` and balance callbacks a
present identity has points of at least zero. -/
theorem points_nonneg (persisted : Option User) (actions : List Action)
    (hp : ∀ r, persisted = some r → 0 ≤ r.points)
    (ha : ∀ a ∈ actions, a.nonneg) (u : User)
    (hu : (run (State.initial persisted) actions).currentUser = some u) :
    0 ≤ u.points := by
  have h0 : PointsNonneg (State.initial persisted) := by
    refine ⟨?_, ?_, ?_⟩
    · intro v hv
      simp [State.initial] at hv
    · intro r hr
      exact hp r (by simpa [State.initial] using hr)
    · intro path data p hmem
      simp [State.initial] at hmem
  exact (run_pointsNonneg actions _ h0 ha).1 u hu

/-- Claim C12 (witness). Login as `team_alpha`, a delivery of 750 points and
`updateUserPoints(0)`. -/
theorem points_nonneg_witness :
    (run (State.initial none)
        [ .login "team_alpha" "alpha123", .deliver 0 (some { points := some 750 }),
          .updateUserPoints 0 ]).currentUser
        = some { id := "team_alpha", role := "captain", displayName := "Team Alpha",
                 points := 0 }
      ∧ (0 : Int) ≤ (User.mk "team_alpha" "captain" "Team Alpha" 0).points :=
  ⟨by decide,
   points_nonneg none
    [ .login "team_alpha" "alpha123", .deliver 0 (some { points := some 750 }),
      .updateUserPoints 0 ]
    (by simp) (by simp [Action.nonneg])
    { id := "team_alpha", role := "captain", displayName := "Team Alpha", points := 0 }
    (by decide)⟩

/-- Claim C13. `login` classifies its failures in a fixed order.  With an empty
team id it fails with the missing-selection toast, whatever the secret.  With a
non-empty team id and an empty secret it fails with the missing-secret toast,
configured id or not.  With both non-empty and the id not configured or the
secret different it fails with the invalid-credentials toast.  Each failure
returns the state it was given with that one error toast appended.  In the
remaining case, both non-empty and the secret equal to the configured one, it
succeeds: the identity of that id with the configured role is current and
persisted, and a `userLogin` event carrying it is the last effect. -/
theorem login_classification (s : State) :
    (∀ password, login s "" password
        = { s with log := s.log ++
              [.toast (LoginFailure.message .MissingSelection) "error"] })
      ∧ (∀ teamId, teamId ≠ "" → login s teamId ""
        = { s with log := s.log ++ [.toast (LoginFailure.message .MissingSecret) "error"] })
      ∧ (∀ teamId password, teamId ≠ "" → password ≠ "" →
          (AUTH_CREDENTIALS.lookup teamId = none
            ∨ ∃ cred, AUTH_CREDENTIALS.lookup teamId = some cred ∧ cred.password ≠ password) →
          login s teamId password
            = { s with log := s.log ++
                  [.toast (LoginFailure.message .InvalidCredentials) "error"] })
      ∧ ∀ teamId password cred, teamId ≠ "" → password ≠ "" →
          AUTH_CREDENTIALS.lookup teamId = some cred → cred.password = password →
          ∃ user : User, user.id = teamId ∧ user.role = cred.role
            ∧ (login s teamId password).currentUser = some user
            ∧ (login s teamId password).log.getLast?
                = some (.dispatch "userLogin" (some user)) := by
  refine ⟨?_, ?_, ?_, ?_⟩
  · intro password
    simp [login, showToast, State.emit, LoginFailure.message]
  · intro teamId h1
    simp [login, h1, showToast, State.emit, LoginFailure.message]
  · intro teamId password h1 h2 h
    rcases h with h | ⟨cred, h, hne⟩
    · by_cases hk : teamId ∈ objectPrototypeKeys <;>
        simp [login, h1, h2, getMember, h, hk, showToast, State.emit, LoginFailure.message]
    · simp [login, h1, h2, getMember, h, hne, showToast, State.emit, LoginFailure.message]
  · intro teamId password cred h1 h2 h hp
    obtain ⟨hcur, hlast, -⟩ :=
      login_ok_spec s teamId password cred _ _ h1 h2 h hp rfl rfl
    refine ⟨_, ?_, ?_, hcur, hlast⟩
    · split
      · split <;> rfl
      · rfl
    · split
      · split <;> rfl
      · rfl

/-- Claim C13 (witness). One input of each class on a freshly loaded page. -/
theorem login_classification_witness :
    login (State.initial none) "" "alpha123"
        = { State.initial none with log := [.toast "팀을 선택해주세요" "error"] }
      ∧ login (State.initial none) "team_echo" ""
        = { State.initial none with log := [.toast "비밀번호를 입력해주세요" "error"] }
      ∧ login (State.initial none) "team_alpha" "bravo123"
        = { State.initial none with log := [.toast "로그인 실패: 잘못된 비밀번호" "error"] }
      ∧ ∃ user : User, user.id = "team_alpha" ∧ user.role = "captain"
          ∧ (login (State.initial none) "team_alpha" "alpha123").currentUser = some user :=
  have h := login_classification (State.initial none)
  ⟨h.1 "alpha123", h.2.1 "team_echo" (by decide),
   h.2.2.1 "team_alpha" "bravo123" (by decide) (by decide)
     (Or.inr ⟨{ password := "alpha123", role := "captain" }, by decide, by decide⟩),
   (h.2.2.2 "team_alpha" "alpha123" { password := "alpha123", role := "captain" }
     (by decide) (by decide) (by decide) rfl).imp fun _ hu => ⟨hu.1, hu.2.1, hu.2.2.1⟩⟩

theorem validateBid_raise_valid (c b : ℚ) (u : Numeric) (hc : 0 ≤ c) (hb : c < b)
    (hu : Numeric.fin b ≤ u) :
    validateBid (.num (.fin b)) (.num (.fin c)) (.num (.ofNumeric u)) = .ok := by
  have h : validateBid (.num (.fin b)) (.num (.fin c)) (.num (.ofNumeric u))
      = validateSpecZero (JSVal.num (.fin b)).numeric? (.fin c) u :=
    validateBid_eq_validateSpecZero (.num (.fin b)) (.fin c) u
  rw [h]
  have hb0 : b ≠ 0 := ne_of_gt (lt_of_le_of_lt hc hb)
  have h1 : ¬ (Numeric.fin b ≤ Numeric.fin c) := by
    simp [Numeric.le_def, Numeric.le, hb]
  have h2 : ¬ (u < Numeric.fin b) := by
    rw [Numeric.le_def] at hu
    simp [Numeric.lt_def, Numeric.lt, hu]
  simp [validateSpecZero, JSVal.numeric?, hb0, h1, h2]

theorem pow53_lt : (2 : ℕ) ^ 53 < 2 ^ 1024 :=
  Nat.pow_lt_pow_right Nat.one_lt_two (by decide)

theorem ofInt_of_round (z : ℤ) (n m : ℕ) (hz : z.natAbs = n) (hm : roundNat n = m)
    (hpos : 0 ≤ z) (hsmall : m < 2 ^ 1024) : JSNum.ofInt z = .fin (m : ℚ) := by
  unfold JSNum.ofInt
  rw [hz, hm, if_neg (not_le.mpr hsmall), if_neg (not_lt.mpr hpos)]

theorem jsAddInt_one_exact (c : ℤ) (hc : 0 ≤ c) (hb : c < 2 ^ 53) :
    jsAddInt c 1 = .fin ((c : ℚ) + 1) := by
  have hnat : ((c + 1).natAbs : ℤ) = c + 1 := Int.natAbs_of_nonneg (by omega)
  have hle : (c + 1).natAbs ≤ 2 ^ 53 := by
    have : ((c + 1).natAbs : ℤ) ≤ 2 ^ 53 := by rw [hnat]; omega
    exact_mod_cast this
  have hround : roundNat (c + 1).natAbs = (c + 1).natAbs := by
    unfold roundNat
    rw [if_pos hle]
  exact (ofInt_of_round (c + 1) _ _ rfl hround (by omega)
    (lt_of_le_of_lt hle pow53_lt)).trans (by rw [← Int.cast_natCast, hnat]; push_cast; rfl)

/-- Claim C14 (counterexample). With the current bid `2 ^ 53` the sum
`currentBid + 1` rounds back to `2 ^ 53`, and `validateBid` rejects the bid as
not above the current bid, although the balance `2 ^ 60` covers it. -/
theorem validateBid_increment_lost_to_rounding :
    JSNum.ofInt (2 ^ 53) = .fin (2 ^ 53)
      ∧ jsAddInt (2 ^ 53) 1 = .fin (2 ^ 53)
      ∧ validateBid (.num (jsAddInt (2 ^ 53) 1)) (.num (.fin (2 ^ 53))) (.num (.fin (2 ^ 60)))
        = .invalid .BelowCurrentBid := by
  have h1 : JSNum.ofInt (2 ^ 53) = .fin (2 ^ 53) :=
    (ofInt_of_round (2 ^ 53) (2 ^ 53) (2 ^ 53) (by decide) (by decide) (by decide)
      pow53_lt).trans (by norm_num)
  have h2 : jsAddInt (2 ^ 53) 1 = .fin (2 ^ 53) :=
    (ofInt_of_round (2 ^ 53 + 1) (2 ^ 53 + 1) (2 ^ 53) (by decide) (by decide) (by decide)
      pow53_lt).trans (by norm_num)
  refine ⟨h1, h2, ?_⟩
  rw [h2]
  simp [validateBid, JSVal.truthy, isNaN, JSVal.toNumber, jsLe, jsGt, JSNum.lessThan,
    BidResult.invalid, BidReason.message]

/-- Claim C14 (amended). `validateBid` enforces no minimum increment: for every
integer current bid of at least zero and below `2 ^ 53`, so that the sum
`currentBid + 1` is exact, and every balance of at least the current bid plus
one, the bid `currentBid + 1` is valid, although it raises by less than
`BID_RULES.MIN_BID_INCREMENT`; more generally every bid above the current bid
and within the balance is valid, however small the raise. -/
theorem validateBid_no_min_increment (currentBid : ℤ) (hc : 0 ≤ currentBid)
    (hbound : currentBid < 2 ^ 53)
    (userPoints : Numeric) (hu : Numeric.fin ((currentBid : ℚ) + 1) ≤ userPoints) :
    validateBid (.num (jsAddInt currentBid 1)) (.num (.fin currentBid))
        (.num (.ofNumeric userPoints)) = .ok
      ∧ ((currentBid : ℚ) + 1) - currentBid < BID_RULES.MIN_BID_INCREMENT
      ∧ ∀ bidAmount : ℚ, (currentBid : ℚ) < bidAmount → Numeric.fin bidAmount ≤ userPoints →
          validateBid (.num (.fin bidAmount)) (.num (.fin currentBid))
            (.num (.ofNumeric userPoints)) = .ok := by
  have hc0 : (0 : ℚ) ≤ (currentBid : ℚ) := by exact_mod_cast hc
  rw [jsAddInt_one_exact currentBid hc hbound]
  refine ⟨validateBid_raise_valid _ _ _ hc0 (by linarith) hu, ?_, ?_⟩
  · simp [BID_RULES.MIN_BID_INCREMENT]
  · intro bidAmount hb hub
    exact validateBid_raise_valid _ _ _ hc0 hb hub

/-- Claim C14 (witness). The bid `100 + 1` over the current bid 100 with a
balance of 500 is valid though it raises by 1. -/
theorem validateBid_no_min_increment_witness :
    validateBid (.num (jsAddInt 100 1)) (.num (.fin ((100 : ℤ) : ℚ)))
        (.num (.fin 500)) = .ok
      ∧ (((100 : ℤ) : ℚ) + 1) - ((100 : ℤ) : ℚ) < BID_RULES.MIN_BID_INCREMENT :=
  have h := validateBid_no_min_increment 100 (by decide) (by decide) (.fin 500)
    (by simp [Numeric.le_def, Numeric.le]; norm_num)
  ⟨h.1, h.2.1⟩

/-- Claim C15. Restoration trusts the persisted record verbatim: for every
persisted record whose id is one of the configured ids, after `initAuth` on a
freshly loaded page the current identity is the record itself (role, display
name and points as stored) and the record stays persisted; `isAdmin` and
`isCaptain` answer by the stored role, and a subscription is started, on the
path of the stored id, exactly when the stored role is captain, whatever role
the credential table configures for that id. -/
theorem restore_verbatim (r : User) (cred : Credential)
    (h : AUTH_CREDENTIALS.lookup r.id = some cred) :
    (initAuth (State.initial (some r))).currentUser = some r
      ∧ (initAuth (State.initial (some r))).storage = some r
      ∧ isAdmin (initAuth (State.initial (some r))) = (r.role == ROLES.ADMIN)
      ∧ isCaptain (initAuth (State.initial (some r))) = (r.role == ROLES.CAPTAIN)
      ∧ (initAuth (State.initial (some r))).subscriptions
          = if r.role = ROLES.CAPTAIN then [("teams/" ++ r.id, 0)] else [] := by
  have hid : r.id ≠ "" := by
    intro h0
    have hnone : AUTH_CREDENTIALS.lookup "" = none := by decide
    rw [h0, hnone] at h
    cases h
  have hac : ROLES.ADMIN ≠ ROLES.CAPTAIN := by decide
  by_cases ha : r.role = ROLES.ADMIN
  · have hc : r.role ≠ ROLES.CAPTAIN := by rw [ha]; exact hac
    simp [initAuth, loadFromStorage, State.initial, hid, validateSession, getMember, h,
      Member.truthy, restoreSession, updateUIAfterLogin, showToast, State.emit, isAdmin,
      isCaptain, ha, hac]
  · by_cases hc : r.role = ROLES.CAPTAIN
    · simp [initAuth, loadFromStorage, State.initial, hid, validateSession, getMember, h,
        Member.truthy, restoreSession, updateUIAfterLogin, setupTeamDataListener, onValue,
        showToast, State.emit, isAdmin, isCaptain, hc, hac.symm]
    · simp [initAuth, loadFromStorage, State.initial, hid, validateSession, getMember, h,
        Member.truthy, restoreSession, updateUIAfterLogin, showToast, State.emit, isAdmin,
        isCaptain, ha, hc]

/-- Claim C15 (witness). The record of `team_alpha` stored with the role
`admin` restores as an administrator with no subscription. -/
theorem restore_verbatim_witness :
    (initAuth (State.initial
        (some { id := "team_alpha", role := "admin", displayName := "Team Alpha",
                points := 1000 }))).currentUser
        = some { id := "team_alpha", role := "admin", displayName := "Team Alpha",
                 points := 1000 }
      ∧ isAdmin (initAuth (State.initial
        (some { id := "team_alpha", role := "admin", displayName := "Team Alpha",
                points := 1000 }))) = true
      ∧ (initAuth (State.initial
        (some { id := "team_alpha", role := "admin", displayName := "Team Alpha",
                points := 1000 }))).subscriptions = [] :=
  have h := restore_verbatim
    { id := "team_alpha", role := "admin", displayName := "Team Alpha", points := 1000 }
    { password := "alpha123", role := "captain" } (by decide)
  ⟨h.1, h.2.2.1.trans (by decide), h.2.2.2.2.trans (by decide)⟩

end Auction
